import Mathlib

/-!
Shallow embedding of the Ozone STS/Keycloak demo clients
(`sts_client.py`, `keycloak_client.py`, `demo_token_lifecycle.py`).

XML documents are modelled as rose trees mirroring
`xml.etree.ElementTree`: an element has a namespace (ET stores a
namespaced tag as the pair of namespace URI and local name), optional
text, and a list of children.  `find` with a path of the form
`.//Tag` returns the first matching proper descendant in document
order; `find` with a bare tag returns the first matching direct child.
HTTP responses are modelled as a status code, the raw body string, and
the result of `ET.fromstring` on that body (`none` when the body does
not parse).  Raised exceptions become `Except.error` carrying the
exception message.
-/

/-- An XML element as stored by ElementTree: namespace URI (if the tag
is namespace-qualified), local tag name, text, children. -/
inductive XElem : Type where
  | node (ns : Option String) (name : String) (text : Option String)
      (children : List XElem) : XElem

def XElem.ns : XElem → Option String
  | .node n _ _ _ => n

def XElem.name : XElem → String
  | .node _ t _ _ => t

def XElem.text : XElem → Option String
  | .node _ _ tx _ => tx

def XElem.children : XElem → List XElem
  | .node _ _ _ ch => ch

/-- Tag match used by ElementTree `find`: a path component `{uri}tag`
matches exactly elements with that namespace and local name, and a
bare `tag` matches exactly elements with no namespace. -/
def XElem.matchesTag (e : XElem) (ns : Option String) (nm : String) : Bool :=
  e.ns == ns && e.name == nm

/-- First match in document order (pre-order) in a forest, descending
into children: the search performed by `find` on a `.//tag` path. -/
def findDescList (ns : Option String) (nm : String) : List XElem → Option XElem
  | [] => none
  | XElem.node n t tx ch :: rest =>
    if (XElem.node n t tx ch).matchesTag ns nm then
      some (XElem.node n t tx ch)
    else
      match findDescList ns nm ch with
      | some r => some r
      | none => findDescList ns nm rest

/-- Embedding of `element.find(".//{ns}tag")`: first matching proper
descendant of `e` in document order (the element itself is excluded). -/
def XElem.findDesc (e : XElem) (ns : Option String) (nm : String) : Option XElem :=
  findDescList ns nm e.children

/-- Embedding of `element.find("tag")` (no `.//` prefix): first
matching direct child. -/
def XElem.findChild (e : XElem) (ns : Option String) (nm : String) : Option XElem :=
  e.children.find? (fun c => c.matchesTag ns nm)

/-- The STS namespace URI used by `sts_client.py`
(`ns = \x7b"sts": "https://sts.amazonaws.com/doc/2011-06-15/"\x7d`). -/
def stsNS : String := "https://sts.amazonaws.com/doc/2011-06-15/"

/-- Rendering of an `Optional[str]` inside a Python f-string:
`None` prints as the four characters `None`. -/
def optTextStr : Option String → String
  | some t => t
  | none => "None"

/-- Embedding of `STSCredentials`: container for the four temporary
credential fields, all strings exactly as extracted from the XML. -/
structure STSCredentials : Type where
  access_key_id : String
  secret_access_key : String
  session_token : String
  expiration : String
deriving Repr, DecidableEq

/-- Embedding of `STSClient._get_text(element, tag, namespace)`: try
the namespace-qualified direct child `sts:tag` first (when a namespace
dict was passed), fall back to the unqualified direct child, and
return the text when the child exists and its text is truthy (present
and non-empty), else the empty string. -/
def get_text (element : XElem) (tag : String) (useNs : Bool) : String :=
  let child0 : Option XElem :=
    if useNs then element.findChild (some stsNS) tag else none
  let child : Option XElem :=
    match child0 with
    | some c => some c
    | none => element.findChild none tag
  match child with
  | some c =>
    match c.text with
    | some t => if t == "" then "" else t
    | none => ""
  | none => ""

/-- Embedding of `STSClient._parse_assume_role_response(xml_response)`.
The first argument is the raw response string (used only in the
`Could not find Credentials` message, truncated to 200 characters);
the second is the result of `ET.fromstring` on it, `none` when the
body is not well-formed XML (the `ET.ParseError` branch). -/
def parse_assume_role_response (xml_response : String) (parsed : Option XElem) :
    Except String STSCredentials :=
  match parsed with
  | none => Except.error "Failed to parse STS response"
  | some root =>
    match root.findDesc (some stsNS) "Error" with
    | some err =>
      let code := err.findDesc (some stsNS) "Code"
      let message := err.findDesc (some stsNS) "Message"
      let error_msg := "STS Error: " ++
        (match code with
         | some c => optTextStr c.text
         | none => "Unknown")
      let error_msg :=
        match message with
        | some m => error_msg ++ " - " ++ optTextStr m.text
        | none => error_msg
      Except.error error_msg
    | none =>
      let creds0 := root.findDesc (some stsNS) "Credentials"
      let creds :=
        match creds0 with
        | some c => some c
        | none => root.findDesc none "Credentials"
      match creds with
      | none =>
        Except.error
          ("Could not find Credentials in response: " ++ xml_response.take 200)
      | some c =>
        Except.ok
          ⟨get_text c "AccessKeyId" true,
           get_text c "SecretAccessKey" true,
           get_text c "SessionToken" true,
           get_text c "Expiration" true⟩

/-- An HTTP response as seen by `assume_role_with_web_identity`:
status code, raw body text, and the ElementTree parse of the body. -/
structure HTTPResponse : Type where
  status_code : Nat
  text : String
  parsed : Option XElem

/-- Embedding of `STSClient.assume_role_with_web_identity` after the
POST request returns: a non-200 status raises
`STS request failed: status - body` before the body is parsed;
otherwise the body is parsed by `_parse_assume_role_response`. -/
def assume_role_with_web_identity (response : HTTPResponse) :
    Except String STSCredentials :=
  if response.status_code ≠ 200 then
    Except.error
      ("STS request failed: " ++ toString response.status_code ++ " - " ++
        response.text)
  else
    parse_assume_role_response response.text response.parsed

/-- Embedding of `STSCredentials.is_expired`. The call
`datetime.fromisoformat(self.expiration.replace("Z", "+00:00"))` is
modelled by an abstract parse function `parseExp` from strings to
instants (epoch seconds); a parse failure (the `except` branch)
returns `True`, otherwise the result is `exp_time < now`.  The
function is total: it never raises. -/
def is_expired (parseExp : String → Option Int) (now : Int)
    (expiration : String) : Bool :=
  match parseExp (expiration.replace "Z" "+00:00") with
  | some exp_time => decide (exp_time < now)
  | none => true

/-- A Keycloak token response as cached by `keycloak_client.py`: the
fields the client reads.  An absent `expires_in` key models
`token_data.get("expires_in", 0)` returning the default. -/
structure TokenData : Type where
  access_token : String
  expires_in : Option Int
deriving Repr, DecidableEq

/-- One entry of `KeycloakClient._token_cache`: the token response
plus the `time.time()` timestamp recorded when it was stored. -/
structure CacheEntry : Type where
  token_data : TokenData
  timestamp : Int
deriving Repr, DecidableEq

/-- The per-principal token cache `KeycloakClient._token_cache`,
a dict keyed by username. -/
def TokenCache : Type := String → Option CacheEntry

/-- Embedding of `KeycloakClient.authenticate(username, password)`
after a successful POST: the network result `token_data` is stored in
the cache under `username` with the current time, overwriting any
prior entry, and returned.  The result is the returned token response
paired with the updated cache. -/
def authenticate (cache : TokenCache) (username : String)
    (token_data : TokenData) (now : Int) : TokenData × TokenCache :=
  (token_data,
   fun u => if u = username then some ⟨token_data, now⟩ else cache u)

/-- Embedding of `KeycloakClient.refresh_token(refresh_token)` after a
successful POST: the JSON response is returned as-is; the method does
not touch `_token_cache`. -/
def refresh_token (cache : TokenCache) (responseJson : TokenData) :
    TokenData × TokenCache :=
  (responseJson, cache)

/-- Embedding of `KeycloakClient.get_access_token(username, password,
force_refresh)`.  When `force_refresh` is false and the cache has an
entry for `username` whose age `now - timestamp` is strictly below
`expires_in - 30` (with `expires_in` defaulting to 0 when absent), the
cached access token is returned without re-authenticating; otherwise
`authenticate` is called and its access token returned.  The result is
the token, a flag recording whether `authenticate` was called, and the
resulting cache.  `authResult` stands for the token response the
authentication POST would return. -/
def get_access_token (cache : TokenCache) (now : Int) (username : String)
    (authResult : TokenData) (force_refresh : Bool) :
    String × Bool × TokenCache :=
  let cachedHit : Option String :=
    if force_refresh = false then
      match cache username with
      | some entry =>
        let expires_in := entry.token_data.expires_in.getD 0
        if now - entry.timestamp < expires_in - 30 then
          some entry.token_data.access_token
        else none
      | none => none
    else none
  match cachedHit with
  | some t => (t, false, cache)
  | none =>
    let r := authenticate cache username authResult now
    (r.1.access_token, true, r.2)

/-- A decoded JWT payload as read by `is_token_valid`: only the `exp`
claim matters; `none` models an absent key so that
`payload.get("exp", 0)` yields the default 0. -/
structure JWTPayload : Type where
  exp : Option Int
deriving Repr, DecidableEq

/-- Embedding of `KeycloakClient.is_token_valid(token)`.  The call
`self.decode_token(token, verify=False)` is modelled by the abstract
`decode`; a decode failure (the `except` branch) yields `false`,
otherwise the result is `payload.get("exp", 0) > time.time()`.  The
function is total: it never raises. -/
def is_token_valid (decode : String → Option JWTPayload) (now : Int)
    (token : String) : Bool :=
  match decode token with
  | some payload => decide (now < payload.exp.getD 0)
  | none => false

/-- The error codes on which `perform_s3_operation` renews credentials
and retries: the list in
`if error_code in ["ExpiredToken", "InvalidToken", "AccessDenied"]`. -/
def renewalCodes : List String := ["ExpiredToken", "InvalidToken", "AccessDenied"]

/-- Outcome of one attempt of the S3 operation inside
`perform_s3_operation`: success, a `ClientError` with an error code,
or any other exception with a message. -/
inductive S3Outcome : Type where
  | success : S3Outcome
  | clientError (code : String) : S3Outcome
  | otherError (msg : String) : S3Outcome
deriving Repr, DecidableEq

/-- Result of `perform_s3_operation` in the trace model: `done n`
means the method returned to its caller after `n` attempts (it never
re-raises; failures are only logged); `exhausted n` means the supplied
trace of outcomes ran out after `n` attempts with the method still
retrying. -/
inductive OpResult : Type where
  | done (attempts : Nat) : OpResult
  | exhausted (attempts : Nat) : OpResult
deriving Repr, DecidableEq

/-- Embedding of `TokenLifecycleManager.perform_s3_operation`.  The
environment is a trace of outcomes, one per attempt of the S3 call.
On a `ClientError` whose code is in `renewalCodes` the method renews
credentials and calls itself recursively on the same operation name,
consuming the next outcome; on success, on a `ClientError` with any
other code, or on any other exception it logs and returns.  `n` counts
the attempts already made. -/
def perform_s3_operation : List S3Outcome → Nat → OpResult
  | [], n => OpResult.exhausted n
  | o :: rest, n =>
    match o with
    | S3Outcome.success => OpResult.done (n + 1)
    | S3Outcome.clientError code =>
      if code ∈ renewalCodes then
        perform_s3_operation rest (n + 1)
      else
        OpResult.done (n + 1)
    | S3Outcome.otherError _ => OpResult.done (n + 1)

/-- Helper: evaluation of the error branch of
`_parse_assume_role_response` when the namespace-qualified Error
element is present with Code and Message children carrying text. -/
theorem parse_error_code_msg (body : String) (root err code msg : XElem)
    (c m : String)
    (herr : root.findDesc (some stsNS) "Error" = some err)
    (hcode : err.findDesc (some stsNS) "Code" = some code)
    (hct : code.text = some c)
    (hmsg : err.findDesc (some stsNS) "Message" = some msg)
    (hmt : msg.text = some m) :
    parse_assume_role_response body (some root) =
      Except.error ("STS Error: " ++ c ++ " - " ++ m) := by
  simp [parse_assume_role_response, herr, hcode, hmsg, hct, hmt, optTextStr]

/-- Helper: at status 200 the method parses the body. -/
theorem assume_role_ok_status (body : String) (p : Option XElem) :
    assume_role_with_web_identity ⟨200, body, p⟩ =
      parse_assume_role_response body p := rfl

/-- Helper: at a non-200 status the method raises the generic HTTP
failure message without parsing the body. -/
theorem assume_role_bad_status (s : Nat) (body : String) (p : Option XElem)
    (hs : s ≠ 200) :
    assume_role_with_web_identity ⟨s, body, p⟩ =
      Except.error ("STS request failed: " ++ toString s ++ " - " ++ body) := by
  simp [assume_role_with_web_identity, hs]

/-- The namespace-qualified Code element of the concrete error
response used below. -/
def wCodeElem : XElem := XElem.node (some stsNS) "Code" (some "AccessDenied") []

/-- The namespace-qualified Message element of the concrete error
response used below. -/
def wMsgElem : XElem := XElem.node (some stsNS) "Message" (some "Access denied") []

/-- The namespace-qualified Error element of the concrete error
response used below. -/
def wErrElem : XElem := XElem.node (some stsNS) "Error" none [wCodeElem, wMsgElem]

/-- ElementTree parse of `wErrBody`: an STS error response whose
elements carry the STS namespace. -/
def wErrTree : XElem := XElem.node (some stsNS) "ErrorResponse" none [wErrElem]

/-- A concrete raw error response body; `wErrTree` is its parse. -/
def wErrBody : String :=
  "<ErrorResponse xmlns=\"https://sts.amazonaws.com/doc/2011-06-15/\"><Error><Code>AccessDenied</Code><Message>Access denied</Message></Error></ErrorResponse>"

/-- Helper: the concrete error tree contains the qualified Error
element. -/
theorem wErrTree_findDesc :
    wErrTree.findDesc (some stsNS) "Error" = some wErrElem := by
  simp [wErrTree, wErrElem, wCodeElem, wMsgElem, XElem.findDesc, findDescList,
    XElem.matchesTag, XElem.ns, XElem.name, XElem.children]

/-- Helper: the concrete Error element contains the qualified Code
element. -/
theorem wErrElem_findCode :
    wErrElem.findDesc (some stsNS) "Code" = some wCodeElem := by
  simp [wErrElem, wCodeElem, wMsgElem, XElem.findDesc, findDescList,
    XElem.matchesTag, XElem.ns, XElem.name, XElem.children]

/-- Helper: the concrete Error element contains the qualified Message
element. -/
theorem wErrElem_findMessage :
    wErrElem.findDesc (some stsNS) "Message" = some wMsgElem := by
  simp [wErrElem, wCodeElem, wMsgElem, XElem.findDesc, findDescList,
    XElem.matchesTag, XElem.ns, XElem.name, XElem.children]

/-- C1 counterexample: a response with HTTP status 403 whose body is an
Error document with code `AccessDenied` and message `Access denied`.
The code raises the generic `STS request failed` message built from the
status and raw body, not the parsed `STS Error` message it produces for
the same body at status 200; the two messages differ, so the result is
not independent of the HTTP status and the parsed error payload does
not take precedence over the HTTP status. -/
theorem assume_role_status_precedence_cex :
    assume_role_with_web_identity ⟨403, wErrBody, some wErrTree⟩ =
      Except.error ("STS request failed: " ++ toString (403 : Nat) ++ " - " ++
        wErrBody) ∧
    assume_role_with_web_identity ⟨200, wErrBody, some wErrTree⟩ =
      Except.error "STS Error: AccessDenied - Access denied" ∧
    ("STS request failed: " ++ toString (403 : Nat) ++ " - " ++ wErrBody ≠
      "STS Error: AccessDenied - Access denied") := by
  refine ⟨rfl, ?_, ?_⟩
  · have h := parse_error_code_msg wErrBody wErrTree wErrElem wCodeElem
      wMsgElem "AccessDenied" "Access denied" wErrTree_findDesc
      wErrElem_findCode rfl wErrElem_findMessage rfl
    rw [assume_role_ok_status, h]
    rfl
  · have ht : toString (403 : Nat) = "403" := rfl
    simp [ht, wErrBody]

/-- C1 amended: when the HTTP status is 200 and the parsed body
contains a namespace-qualified Error element with Code and Message
children, the raised error carries the upstream code and message; when
the status is not 200 the raised error is the generic HTTP failure
message built from the status code and the raw body, and the body is
never parsed, so the HTTP status takes precedence over the error
payload. -/
theorem assume_role_error_parsing (status : Nat) (body : String)
    (root err code msg : XElem) (c m : String)
    (h200 : status = 200)
    (herr : root.findDesc (some stsNS) "Error" = some err)
    (hcode : err.findDesc (some stsNS) "Code" = some code)
    (hctext : code.text = some c)
    (hmsg : err.findDesc (some stsNS) "Message" = some msg)
    (hmtext : msg.text = some m) :
    assume_role_with_web_identity ⟨status, body, some root⟩ =
      Except.error ("STS Error: " ++ c ++ " - " ++ m) ∧
    (∀ s b p, s ≠ 200 →
      assume_role_with_web_identity ⟨s, b, p⟩ =
        Except.error ("STS request failed: " ++ toString s ++ " - " ++ b)) := by
  subst h200
  exact ⟨by
    rw [assume_role_ok_status]
    exact parse_error_code_msg body root err code msg c m herr hcode hctext
      hmsg hmtext,
    fun s b p hs => assume_role_bad_status s b p hs⟩

/-- C1 amended witness: the amended theorem applied to the concrete
error response at status 200, and its status branch at 404. -/
theorem assume_role_error_parsing_witness :
    assume_role_with_web_identity ⟨200, wErrBody, some wErrTree⟩ =
      Except.error ("STS Error: " ++ "AccessDenied" ++ " - " ++ "Access denied") ∧
    assume_role_with_web_identity ⟨404, wErrBody, some wErrTree⟩ =
      Except.error ("STS request failed: " ++ toString (404 : Nat) ++ " - " ++
        wErrBody) :=
  ⟨(assume_role_error_parsing 200 wErrBody wErrTree wErrElem wCodeElem wMsgElem
      "AccessDenied" "Access denied" rfl wErrTree_findDesc wErrElem_findCode
      rfl wErrElem_findMessage rfl).1,
   (assume_role_error_parsing 200 wErrBody wErrTree wErrElem wCodeElem wMsgElem
      "AccessDenied" "Access denied" rfl wErrTree_findDesc wErrElem_findCode
      rfl wErrElem_findMessage rfl).2
      404 wErrBody (some wErrTree) (by decide)⟩

/-- Helper: evaluation of the credentials branch of
`_parse_assume_role_response` when no qualified Error element is
present and the qualified Credentials element is found. -/
theorem parse_credentials_branch (body : String) (root creds : XElem)
    (hne : root.findDesc (some stsNS) "Error" = none)
    (hc : root.findDesc (some stsNS) "Credentials" = some creds) :
    parse_assume_role_response body (some root) =
      Except.ok
        ⟨get_text creds "AccessKeyId" true,
         get_text creds "SecretAccessKey" true,
         get_text creds "SessionToken" true,
         get_text creds "Expiration" true⟩ := by
  simp [parse_assume_role_response, hne, hc]

/-- Helper: same as `parse_credentials_branch` but through the
unqualified fallback lookup of the Credentials element. -/
theorem parse_credentials_branch_unq (body : String) (root creds : XElem)
    (hne : root.findDesc (some stsNS) "Error" = none)
    (hq : root.findDesc (some stsNS) "Credentials" = none)
    (hu : root.findDesc none "Credentials" = some creds) :
    parse_assume_role_response body (some root) =
      Except.ok
        ⟨get_text creds "AccessKeyId" true,
         get_text creds "SecretAccessKey" true,
         get_text creds "SessionToken" true,
         get_text creds "Expiration" true⟩ := by
  simp [parse_assume_role_response, hne, hq, hu]

/-- Helper: evaluation of the no-credentials branch of
`_parse_assume_role_response`. -/
theorem parse_no_credentials (body : String) (root : XElem)
    (hne : root.findDesc (some stsNS) "Error" = none)
    (hq : root.findDesc (some stsNS) "Credentials" = none)
    (hu : root.findDesc none "Credentials" = none) :
    parse_assume_role_response body (some root) =
      Except.error ("Could not find Credentials in response: " ++
        body.take 200) := by
  simp [parse_assume_role_response, hne, hq, hu]

/-- Helper: `_get_text` through the qualified child with non-empty
text. -/
theorem get_text_qualified (e child : XElem) (tag t : String)
    (h : e.findChild (some stsNS) tag = some child)
    (ht : child.text = some t) (hne : t ≠ "") :
    get_text e tag true = t := by
  simp [get_text, h, ht, hne]

/-- Helper: `_get_text` through the unqualified fallback child with
non-empty text. -/
theorem get_text_fallback (e child : XElem) (tag t : String)
    (h1 : e.findChild (some stsNS) tag = none)
    (h2 : e.findChild none tag = some child)
    (ht : child.text = some t) (hne : t ≠ "") :
    get_text e tag true = t := by
  simp [get_text, h1, h2, ht, hne]

/-- Helper: `_get_text` when the child is absent in both forms. -/
theorem get_text_missing (e : XElem) (tag : String)
    (h1 : e.findChild (some stsNS) tag = none)
    (h2 : e.findChild none tag = none) :
    get_text e tag true = "" := by
  simp [get_text, h1, h2]

/-- A qualified AccessKeyId field of the concrete incomplete
credentials element. -/
def wmAk : XElem := XElem.node (some stsNS) "AccessKeyId" (some "AKID") []

/-- A qualified SecretAccessKey field of the concrete incomplete
credentials element. -/
def wmSk : XElem := XElem.node (some stsNS) "SecretAccessKey" (some "SECRET") []

/-- A qualified Expiration field of the concrete incomplete
credentials element. -/
def wmEx : XElem :=
  XElem.node (some stsNS) "Expiration" (some "2025-01-01T00:00:00Z") []

/-- A concrete Credentials element missing its SessionToken field. -/
def wMissCreds : XElem :=
  XElem.node (some stsNS) "Credentials" none [wmAk, wmSk, wmEx]

/-- A concrete successful response whose Credentials element is
missing the SessionToken field. -/
def wMissTree : XElem :=
  XElem.node (some stsNS) "AssumeRoleWithWebIdentityResponse" none [wMissCreds]

/-- Helper: the incomplete-credentials tree has no qualified Error
element. -/
theorem wMissTree_noError :
    wMissTree.findDesc (some stsNS) "Error" = none := by
  simp [wMissTree, wMissCreds, wmAk, wmSk, wmEx, XElem.findDesc, findDescList,
    XElem.matchesTag, XElem.ns, XElem.name, XElem.children]

/-- Helper: the incomplete-credentials tree contains the qualified
Credentials element. -/
theorem wMissTree_findCreds :
    wMissTree.findDesc (some stsNS) "Credentials" = some wMissCreds := by
  simp [wMissTree, wMissCreds, wmAk, wmSk, wmEx, XElem.findDesc, findDescList,
    XElem.matchesTag, XElem.ns, XElem.name, XElem.children]

/-- C2 counterexample: a 200 response whose Credentials element has
AccessKeyId, SecretAccessKey and Expiration but no SessionToken.  The
method does not raise: it returns credentials whose session token is
the empty string, a partial result, so the four fields of a returned
value are not all non-empty. -/
theorem parse_partial_credentials_cex :
    assume_role_with_web_identity ⟨200, "mbody", some wMissTree⟩ =
      Except.ok ⟨"AKID", "SECRET", "", "2025-01-01T00:00:00Z"⟩ := by
  rw [assume_role_ok_status,
    parse_credentials_branch "mbody" wMissTree wMissCreds wMissTree_noError
      wMissTree_findCreds]
  rfl

/-- A qualified SessionToken field used by the second incomplete
credentials element. -/
def wmSt : XElem := XElem.node (some stsNS) "SessionToken" (some "SESSTOK") []

/-- A concrete Credentials element missing its AccessKeyId field. -/
def wMissCreds2 : XElem :=
  XElem.node (some stsNS) "Credentials" none [wmSk, wmSt, wmEx]

/-- A concrete successful response whose Credentials element is
missing the AccessKeyId field. -/
def wMissTree2 : XElem :=
  XElem.node (some stsNS) "AssumeRoleWithWebIdentityResponse" none [wMissCreds2]

/-- Helper: the second incomplete-credentials tree has no qualified
Error element. -/
theorem wMissTree2_noError :
    wMissTree2.findDesc (some stsNS) "Error" = none := by
  simp [wMissTree2, wMissCreds2, wmSk, wmSt, wmEx, XElem.findDesc,
    findDescList, XElem.matchesTag, XElem.ns, XElem.name, XElem.children]

/-- Helper: the second incomplete-credentials tree contains the
qualified Credentials element. -/
theorem wMissTree2_findCreds :
    wMissTree2.findDesc (some stsNS) "Credentials" = some wMissCreds2 := by
  simp [wMissTree2, wMissCreds2, wmSk, wmSt, wmEx, XElem.findDesc,
    findDescList, XElem.matchesTag, XElem.ns, XElem.name, XElem.children]

/-- C2 amended: a 200 response whose Credentials element is missing
any one of the four fields (in both qualified and unqualified form)
does not raise; it yields a credentials value in which the missing
field is the empty string. -/
theorem parse_missing_field_returns_empty (body : String) (root creds : XElem)
    (tag : String)
    (htag : tag ∈ ["AccessKeyId", "SecretAccessKey", "SessionToken",
      "Expiration"])
    (hne : root.findDesc (some stsNS) "Error" = none)
    (hc : root.findDesc (some stsNS) "Credentials" = some creds)
    (h1 : creds.findChild (some stsNS) tag = none)
    (h2 : creds.findChild none tag = none) :
    ∃ r, assume_role_with_web_identity ⟨200, body, some root⟩ =
        Except.ok r ∧
      (tag = "AccessKeyId" → r.access_key_id = "") ∧
      (tag = "SecretAccessKey" → r.secret_access_key = "") ∧
      (tag = "SessionToken" → r.session_token = "") ∧
      (tag = "Expiration" → r.expiration = "") := by
  refine ⟨⟨get_text creds "AccessKeyId" true,
      get_text creds "SecretAccessKey" true,
      get_text creds "SessionToken" true,
      get_text creds "Expiration" true⟩, ?_, ?_, ?_, ?_, ?_⟩
  · rw [assume_role_ok_status, parse_credentials_branch body root creds hne hc]
  · rintro rfl
    exact get_text_missing creds _ h1 h2
  · rintro rfl
    exact get_text_missing creds _ h1 h2
  · rintro rfl
    exact get_text_missing creds _ h1 h2
  · rintro rfl
    exact get_text_missing creds _ h1 h2

/-- C2 amended witness: the amended theorem applied to the concrete
response missing SessionToken and to the one missing AccessKeyId. -/
theorem parse_missing_field_returns_empty_witness :
    (∃ r, assume_role_with_web_identity ⟨200, "mbody2", some wMissTree⟩ =
        Except.ok r ∧ r.session_token = "") ∧
    (∃ r, assume_role_with_web_identity ⟨200, "mbody3", some wMissTree2⟩ =
        Except.ok r ∧ r.access_key_id = "") := by
  constructor
  · obtain ⟨r, hr, -, -, h3, -⟩ :=
      parse_missing_field_returns_empty "mbody2" wMissTree wMissCreds
        "SessionToken" (by decide) wMissTree_noError wMissTree_findCreds
        rfl rfl
    exact ⟨r, hr, h3 rfl⟩
  · obtain ⟨r, hr, h1, -, -, -⟩ :=
      parse_missing_field_returns_empty "mbody3" wMissTree2 wMissCreds2
        "AccessKeyId" (by decide) wMissTree2_noError wMissTree2_findCreds
        rfl rfl
    exact ⟨r, hr, h1 rfl⟩

/-- The qualified AccessKeyId field of the concrete well-formed
credentials element. -/
def wfAk : XElem := XElem.node (some stsNS) "AccessKeyId" (some "AKIDEXAMPLE") []

/-- The qualified SecretAccessKey field of the concrete well-formed
credentials element. -/
def wfSk : XElem :=
  XElem.node (some stsNS) "SecretAccessKey" (some "secret123") []

/-- The qualified SessionToken field of the concrete well-formed
credentials element. -/
def wfSt : XElem := XElem.node (some stsNS) "SessionToken" (some "sess456") []

/-- The qualified Expiration field of the concrete well-formed
credentials element. -/
def wfEx : XElem :=
  XElem.node (some stsNS) "Expiration" (some "2025-06-01T12:00:00Z") []

/-- A concrete well-formed Credentials element with all four fields
populated. -/
def wFullCreds : XElem :=
  XElem.node (some stsNS) "Credentials" none [wfAk, wfSk, wfSt, wfEx]

/-- A concrete well-formed successful response tree. -/
def wFullTree : XElem :=
  XElem.node (some stsNS) "AssumeRoleWithWebIdentityResponse" none
    [XElem.node (some stsNS) "AssumeRoleWithWebIdentityResult" none
      [wFullCreds]]

/-- Helper: the well-formed tree has no qualified Error element. -/
theorem wFullTree_noError :
    wFullTree.findDesc (some stsNS) "Error" = none := by
  simp [wFullTree, wFullCreds, wfAk, wfSk, wfSt, wfEx, XElem.findDesc,
    findDescList, XElem.matchesTag, XElem.ns, XElem.name, XElem.children]

/-- Helper: the well-formed tree contains the qualified Credentials
element (nested below the Result element). -/
theorem wFullTree_findCreds :
    wFullTree.findDesc (some stsNS) "Credentials" = some wFullCreds := by
  simp [wFullTree, wFullCreds, wfAk, wfSk, wfSt, wfEx, XElem.findDesc,
    findDescList, XElem.matchesTag, XElem.ns, XElem.name, XElem.children]

/-- C9: for a 200 response whose body has no Error element and a
Credentials element whose four fields are present with non-empty text,
`assume_role_with_web_identity` returns an `STSCredentials` whose four
fields are exactly the text content of the corresponding XML elements,
byte for byte. -/
theorem parse_wellformed_exact (body : String) (root creds a s t e : XElem)
    (ak sk st ex : String)
    (hne : root.findDesc (some stsNS) "Error" = none)
    (hc : root.findDesc (some stsNS) "Credentials" = some creds)
    (ha : creds.findChild (some stsNS) "AccessKeyId" = some a)
    (hat : a.text = some ak) (hak : ak ≠ "")
    (hs : creds.findChild (some stsNS) "SecretAccessKey" = some s)
    (hst : s.text = some sk) (hsk : sk ≠ "")
    (ht : creds.findChild (some stsNS) "SessionToken" = some t)
    (htt : t.text = some st) (hstn : st ≠ "")
    (he : creds.findChild (some stsNS) "Expiration" = some e)
    (het : e.text = some ex) (hex : ex ≠ "") :
    assume_role_with_web_identity ⟨200, body, some root⟩ =
      Except.ok ⟨ak, sk, st, ex⟩ := by
  rw [assume_role_ok_status, parse_credentials_branch body root creds hne hc,
    get_text_qualified creds a "AccessKeyId" ak ha hat hak,
    get_text_qualified creds s "SecretAccessKey" sk hs hst hsk,
    get_text_qualified creds t "SessionToken" st ht htt hstn,
    get_text_qualified creds e "Expiration" ex he het hex]

/-- C9 witness: the theorem applied to the concrete well-formed
response. -/
theorem parse_wellformed_exact_witness :
    assume_role_with_web_identity ⟨200, "fbody", some wFullTree⟩ =
      Except.ok ⟨"AKIDEXAMPLE", "secret123", "sess456",
        "2025-06-01T12:00:00Z"⟩ :=
  parse_wellformed_exact "fbody" wFullTree wFullCreds wfAk wfSk wfSt wfEx
    "AKIDEXAMPLE" "secret123" "sess456" "2025-06-01T12:00:00Z"
    wFullTree_noError wFullTree_findCreds
    rfl rfl (by decide) rfl rfl (by decide) rfl rfl (by decide)
    rfl rfl (by decide)

/-- The error response with no namespace on any element: the same
document as `wErrTree` in unqualified form. -/
def wErrTreeU : XElem :=
  XElem.node none "ErrorResponse" none
    [XElem.node none "Error" none
      [XElem.node none "Code" (some "AccessDenied") [],
       XElem.node none "Message" (some "Access denied") []]]

/-- Helper: the unqualified error tree has no qualified Error
element. -/
theorem wErrTreeU_noQualError :
    wErrTreeU.findDesc (some stsNS) "Error" = none := by
  simp [wErrTreeU, XElem.findDesc, findDescList, XElem.matchesTag, XElem.ns,
    XElem.name, XElem.children]

/-- Helper: the unqualified error tree has no qualified Credentials
element. -/
theorem wErrTreeU_noQualCreds :
    wErrTreeU.findDesc (some stsNS) "Credentials" = none := by
  simp [wErrTreeU, XElem.findDesc, findDescList, XElem.matchesTag, XElem.ns,
    XElem.name, XElem.children]

/-- Helper: the unqualified error tree has no unqualified Credentials
element either. -/
theorem wErrTreeU_noUnqCreds :
    wErrTreeU.findDesc none "Credentials" = none := by
  simp [wErrTreeU, XElem.findDesc, findDescList, XElem.matchesTag, XElem.ns,
    XElem.name, XElem.children]

/-- C7 counterexample: the parser does not accept the Error element in
unqualified form.  On the unqualified error document it falls through
to the credentials lookup and raises `Could not find Credentials`,
while on the identical qualified document it raises the STS error
carrying the code and message: the two forms do not produce the same
result. -/
theorem parse_error_namespace_cex :
    parse_assume_role_response "ebody" (some wErrTreeU) =
      Except.error ("Could not find Credentials in response: " ++
        "ebody".take 200) ∧
    parse_assume_role_response "ebody" (some wErrTree) =
      Except.error ("STS Error: " ++ "AccessDenied" ++ " - " ++
        "Access denied") :=
  ⟨parse_no_credentials "ebody" wErrTreeU wErrTreeU_noQualError
      wErrTreeU_noQualCreds wErrTreeU_noUnqCreds,
   parse_error_code_msg "ebody" wErrTree wErrElem wCodeElem wMsgElem
      "AccessDenied" "Access denied" wErrTree_findDesc wErrElem_findCode rfl
      wErrElem_findMessage rfl⟩

/-- A credential field element, qualified when `q` is true. -/
def mkField (q : Bool) (tag t : String) : XElem :=
  XElem.node (if q then some stsNS else none) tag (some t) []

/-- A Credentials element with all four fields, qualified when `q` is
true. -/
def mkCredsElem (q : Bool) (ak sk st ex : String) : XElem :=
  XElem.node (if q then some stsNS else none) "Credentials" none
    [mkField q "AccessKeyId" ak, mkField q "SecretAccessKey" sk,
     mkField q "SessionToken" st, mkField q "Expiration" ex]

/-- A successful response tree holding `mkCredsElem`, qualified when
`q` is true. -/
def mkResponseTree (q : Bool) (ak sk st ex : String) : XElem :=
  XElem.node (if q then some stsNS else none)
    "AssumeRoleWithWebIdentityResponse" none [mkCredsElem q ak sk st ex]

/-- C7 amended: the Credentials element and its four child fields are
looked up qualified-first with an unqualified fallback, and both forms
produce the same parsed result; the Error element and its Code and
Message children, by contrast, are matched only in qualified form (see
the counterexample), so the two-step lookup applies to the credentials
fields, not to every field of the response. -/
theorem parse_credentials_both_forms (q : Bool) (body ak sk st ex : String)
    (hak : ak ≠ "") (hsk : sk ≠ "") (hst : st ≠ "") (hex : ex ≠ "") :
    parse_assume_role_response body (some (mkResponseTree q ak sk st ex)) =
      Except.ok ⟨ak, sk, st, ex⟩ := by
  cases q
  · rw [parse_credentials_branch_unq body (mkResponseTree false ak sk st ex)
        (mkCredsElem false ak sk st ex)
        (by simp [mkResponseTree, mkCredsElem, mkField, XElem.findDesc,
          findDescList, XElem.matchesTag, XElem.ns, XElem.name,
          XElem.children])
        (by simp [mkResponseTree, mkCredsElem, mkField, XElem.findDesc,
          findDescList, XElem.matchesTag, XElem.ns, XElem.name,
          XElem.children])
        (by simp [mkResponseTree, mkCredsElem, mkField, XElem.findDesc,
          findDescList, XElem.matchesTag, XElem.ns, XElem.name,
          XElem.children]),
      get_text_fallback (mkCredsElem false ak sk st ex)
        (mkField false "AccessKeyId" ak) "AccessKeyId" ak rfl rfl rfl hak,
      get_text_fallback (mkCredsElem false ak sk st ex)
        (mkField false "SecretAccessKey" sk) "SecretAccessKey" sk rfl rfl rfl
        hsk,
      get_text_fallback (mkCredsElem false ak sk st ex)
        (mkField false "SessionToken" st) "SessionToken" st rfl rfl rfl hst,
      get_text_fallback (mkCredsElem false ak sk st ex)
        (mkField false "Expiration" ex) "Expiration" ex rfl rfl rfl hex]
  · rw [parse_credentials_branch body (mkResponseTree true ak sk st ex)
        (mkCredsElem true ak sk st ex)
        (by simp [mkResponseTree, mkCredsElem, mkField, XElem.findDesc,
          findDescList, XElem.matchesTag, XElem.ns, XElem.name,
          XElem.children])
        (by simp [mkResponseTree, mkCredsElem, mkField, XElem.findDesc,
          findDescList, XElem.matchesTag, XElem.ns, XElem.name,
          XElem.children]),
      get_text_qualified (mkCredsElem true ak sk st ex)
        (mkField true "AccessKeyId" ak) "AccessKeyId" ak rfl rfl hak,
      get_text_qualified (mkCredsElem true ak sk st ex)
        (mkField true "SecretAccessKey" sk) "SecretAccessKey" sk rfl rfl hsk,
      get_text_qualified (mkCredsElem true ak sk st ex)
        (mkField true "SessionToken" st) "SessionToken" st rfl rfl hst,
      get_text_qualified (mkCredsElem true ak sk st ex)
        (mkField true "Expiration" ex) "Expiration" ex rfl rfl hex]

/-- C7 amended witness: the amended theorem applied in both forms to
concrete field values. -/
theorem parse_credentials_both_forms_witness :
    parse_assume_role_response "qbody"
        (some (mkResponseTree true "A1" "S1" "T1" "E1")) =
      Except.ok ⟨"A1", "S1", "T1", "E1"⟩ ∧
    parse_assume_role_response "qbody"
        (some (mkResponseTree false "A1" "S1" "T1" "E1")) =
      Except.ok ⟨"A1", "S1", "T1", "E1"⟩ :=
  ⟨parse_credentials_both_forms true "qbody" "A1" "S1" "T1" "E1"
      (by decide) (by decide) (by decide) (by decide),
   parse_credentials_both_forms false "qbody" "A1" "S1" "T1" "E1"
      (by decide) (by decide) (by decide) (by decide)⟩

/-- C3 counterexample: a trace in which the first two attempts both
fail with `ExpiredToken`.  The claim says the second failure is
terminal with no further automatic retries, so at most two attempts
ever happen; the code instead renews and retries again, performing a
third attempt, which here succeeds after three attempts in total. -/
theorem perform_s3_operation_third_attempt_cex :
    perform_s3_operation
      [S3Outcome.clientError "ExpiredToken", S3Outcome.clientError "ExpiredToken",
       S3Outcome.success] 0 = OpResult.done 3 := by
  simp [perform_s3_operation, renewalCodes]

/-- C3 amended: on a failure whose code is `ExpiredToken`,
`InvalidToken` or `AccessDenied` the method renews credentials and
retries, and keeps doing so without bound while such failures recur:
after any number `k` of consecutive renewal-code failures followed by
an outcome that is a success, a `ClientError` with any other code, or
another exception, the operation is attempted `k + 1` times and the
method then returns normally (failures are logged, never re-raised to
the caller). -/
theorem perform_s3_operation_retry_unbounded
    (pre : List S3Outcome) (stop : S3Outcome) (rest : List S3Outcome) (n : Nat)
    (hpre : ∀ o ∈ pre, ∃ c, o = S3Outcome.clientError c ∧ c ∈ renewalCodes)
    (hstop : ∀ c, stop = S3Outcome.clientError c → c ∉ renewalCodes) :
    perform_s3_operation (pre ++ stop :: rest) n =
      OpResult.done (n + pre.length + 1) := by
  induction pre generalizing n with
  | nil =>
    rw [List.nil_append]
    cases stop with
    | success => simp [perform_s3_operation]
    | clientError c =>
      have hc := hstop c rfl
      simp [perform_s3_operation, hc]
    | otherError m => simp [perform_s3_operation]
  | cons o pre ih =>
    obtain ⟨c, rfl, hc⟩ := hpre o (List.mem_cons_self o pre)
    rw [List.cons_append]
    simp only [perform_s3_operation, hc, if_pos]
    rw [ih (n + 1) (fun o ho => hpre o (List.mem_cons_of_mem _ ho))]
    congr 1
    simp
    omega

/-- C3 amended witness: two consecutive renewal-code failures followed
by a success give three attempts. -/
theorem perform_s3_operation_retry_unbounded_witness :
    perform_s3_operation
      [S3Outcome.clientError "InvalidToken", S3Outcome.clientError "AccessDenied",
       S3Outcome.success] 0 = OpResult.done (0 + 2 + 1) :=
  perform_s3_operation_retry_unbounded
    [S3Outcome.clientError "InvalidToken", S3Outcome.clientError "AccessDenied"]
    S3Outcome.success [] 0
    (by
      intro o ho
      simp [renewalCodes] at ho ⊢
      rcases ho with h | h <;> simp [h])
    (by intro c hc; cases hc)

/-- C4: for a principal whose cached token was fetched at `t0` with
time-to-live `T`, a call at time `now` with `force_refresh` false
returns the cached access token without re-authenticating exactly when
`now - t0 < T - 30`; otherwise, and always when `force_refresh` is
true, it calls `authenticate` and returns the freshly obtained access
token. -/
theorem get_access_token_cache_policy
    (cache : TokenCache) (now t0 T : Int) (tok : String) (auth : TokenData)
    (username : String)
    (hc : cache username = some ⟨⟨tok, some T⟩, t0⟩) :
    (now - t0 < T - 30 →
      get_access_token cache now username auth false = (tok, false, cache)) ∧
    (T - 30 ≤ now - t0 →
      (get_access_token cache now username auth false).1 =
        auth.access_token ∧
      (get_access_token cache now username auth false).2.1 = true) ∧
    ((get_access_token cache now username auth true).1 = auth.access_token ∧
     (get_access_token cache now username auth true).2.1 = true) := by
  refine ⟨?_, ?_, ?_⟩
  · intro h
    simp [get_access_token, hc, h]
  · intro h
    have h2 : ¬ (now - t0 < T - 30) := by omega
    simp [get_access_token, hc, h2, authenticate]
  · simp [get_access_token, authenticate]

/-- The concrete cache used by the cache-policy witnesses: alice has a
token fetched at 1000 with a 300-second time to live. -/
def wCache : TokenCache :=
  fun u => if u = "alice" then some ⟨⟨"tokA", some 300⟩, 1000⟩ else none

/-- C4 witness: at time 1100 (inside the window) the cached token is
returned; at time 1280 (outside the window) and under forced refresh
the fresh token is returned. -/
theorem get_access_token_cache_policy_witness :
    get_access_token wCache 1100 "alice" ⟨"fresh", some 300⟩ false =
      ("tokA", false, wCache) ∧
    (get_access_token wCache 1280 "alice" ⟨"fresh", some 300⟩ false).1 =
      "fresh" ∧
    (get_access_token wCache 1280 "alice" ⟨"fresh", some 300⟩ true).1 =
      "fresh" :=
  ⟨(get_access_token_cache_policy wCache 1100 1000 300 "tokA"
      ⟨"fresh", some 300⟩ "alice" (by simp [wCache])).1 (by decide),
   ((get_access_token_cache_policy wCache 1280 1000 300 "tokA"
      ⟨"fresh", some 300⟩ "alice" (by simp [wCache])).2.1 (by decide)).1,
   ((get_access_token_cache_policy wCache 1280 1000 300 "tokA"
      ⟨"fresh", some 300⟩ "alice" (by simp [wCache])).2.2).1⟩

/-- C10: for a principal whose cached token data has no `expires_in`
field, the time to live defaults to 0, the validity test
`now - t0 < 0 - 30` fails for every call time at or after the fetch
timestamp, and the call re-authenticates instead of returning the
cached access token. -/
theorem get_access_token_missing_ttl
    (cache : TokenCache) (now t0 : Int) (tok : String) (auth : TokenData)
    (username : String)
    (hc : cache username = some ⟨⟨tok, none⟩, t0⟩)
    (h : t0 ≤ now) :
    (get_access_token cache now username auth false).1 = auth.access_token ∧
    (get_access_token cache now username auth false).2.1 = true := by
  have h2 : ¬ (now - t0 < -30) := by omega
  simp [get_access_token, hc, h2, authenticate]

/-- The concrete cache used by the missing-TTL witness: bob has a
cached token response without an `expires_in` field. -/
def wCacheNoTTL : TokenCache :=
  fun u => if u = "bob" then some ⟨⟨"tokB", none⟩, 1000⟩ else none

/-- C10 witness: at the fetch time itself the call already
re-authenticates. -/
theorem get_access_token_missing_ttl_witness :
    (get_access_token wCacheNoTTL 1000 "bob" ⟨"freshB", some 300⟩ false).1 =
      "freshB" ∧
    (get_access_token wCacheNoTTL 1000 "bob" ⟨"freshB", some 300⟩ false).2.1 =
      true :=
  get_access_token_missing_ttl wCacheNoTTL 1000 1000 "tokB"
    ⟨"freshB", some 300⟩ "bob" (by simp [wCacheNoTTL]) (by decide)

/-- C5: `is_expired` returns true when the expiration parses to an
instant in the past (here one second before now), false when it parses
to an instant in the future (here one hour ahead), and true when the
string does not parse; being a total function, it never raises. -/
theorem is_expired_cases (parseExp : String → Option Int) (now : Int)
    (s : String) :
    (parseExp (s.replace "Z" "+00:00") = some (now - 1) →
      is_expired parseExp now s = true) ∧
    (parseExp (s.replace "Z" "+00:00") = some (now + 3600) →
      is_expired parseExp now s = false) ∧
    (parseExp (s.replace "Z" "+00:00") = none →
      is_expired parseExp now s = true) := by
  refine ⟨?_, ?_, ?_⟩ <;> intro h <;>
    simp only [is_expired, h, decide_eq_true_eq, decide_eq_false_iff_not,
      not_lt] <;> omega

/-- C5 witness: the three cases at concrete parse functions, with now
equal to 100 (so the past instant is 99 and the future one 3700). -/
theorem is_expired_cases_witness :
    is_expired (fun _ => some 99) 100 "2024-01-01T00:00:00Z" = true ∧
    is_expired (fun _ => some 3700) 100 "2024-01-01T00:00:00Z" = false ∧
    is_expired (fun _ => none) 100 "not-a-timestamp" = true :=
  ⟨(is_expired_cases (fun _ => some 99) 100 "2024-01-01T00:00:00Z").1
      (by norm_num),
   (is_expired_cases (fun _ => some 3700) 100 "2024-01-01T00:00:00Z").2.1
      (by norm_num),
   (is_expired_cases (fun _ => none) 100 "not-a-timestamp").2.2 rfl⟩

/-- C6: provided the current time is positive (as `time.time()` always
is), `is_token_valid` returns true exactly when the token decodes and
its `exp` claim is strictly in the future; a decode failure, or an
absent `exp` claim (defaulted to 0), yields false.  Being a total
function, it never raises. -/
theorem is_token_valid_iff (decode : String → Option JWTPayload) (now : Int)
    (token : String) (hnow : 0 < now) :
    is_token_valid decode now token = true ↔
      ∃ p e, decode token = some p ∧ p.exp = some e ∧ now < e := by
  unfold is_token_valid
  cases hdec : decode token with
  | none => simp
  | some p =>
    cases hexp : p.exp with
    | none =>
      simp [hexp]
      omega
    | some e =>
      simp [hexp]

/-- The concrete decoder used by the validity witness: the string
`good` decodes to a payload expiring at 200, all else fails to
decode. -/
def wDecode : String → Option JWTPayload :=
  fun s => if s = "good" then some ⟨some 200⟩ else none

/-- C6 witness: at time 100 the token expiring at 200 is valid. -/
theorem is_token_valid_iff_witness :
    is_token_valid wDecode 100 "good" = true :=
  (is_token_valid_iff wDecode 100 "good" (by decide)).mpr
    ⟨⟨some 200⟩, 200, by simp [wDecode], rfl, by decide⟩

/-- C8 counterexample: a successful `refresh_token` call on an empty
cache leaves the cache empty; no per-principal entry is inserted or
updated, so it is not the case that every successful refresh call
inserts or updates a cache entry. -/
theorem refresh_token_no_cache_insert :
    ((refresh_token (fun _ => none) ⟨"newTok", some 300⟩).2) "alice" =
      none := rfl

/-- C8 amended: every successful `authenticate` call inserts or
updates the cache entry for its principal, overwriting any prior
entry, and leaves every other entry unchanged; `refresh_token` returns
the new token data without touching the cache at all; no operation
removes entries, they are only superseded. -/
theorem authenticate_updates_refresh_preserves
    (cache : TokenCache) (username u : String) (td rd : TokenData)
    (now : Int) :
    ((authenticate cache username td now).2 username = some ⟨td, now⟩) ∧
    (u ≠ username → (authenticate cache username td now).2 u = cache u) ∧
    ((refresh_token cache rd).2 = cache) := by
  refine ⟨by simp [authenticate], ?_, rfl⟩
  intro hu
  simp [authenticate, hu]

/-- C8 amended witness: authenticating alice on the empty cache stores
her entry, leaves bob absent, and a refresh leaves the resulting cache
unchanged. -/
theorem authenticate_updates_refresh_preserves_witness :
    ((authenticate (fun _ => none) "alice" ⟨"tokW", some 60⟩ 500).2 "alice" =
      some ⟨⟨"tokW", some 60⟩, 500⟩) ∧
    ((authenticate (fun _ => none) "alice" ⟨"tokW", some 60⟩ 500).2 "bob" =
      (fun _ => (none : Option CacheEntry)) "bob") :=
  ⟨(authenticate_updates_refresh_preserves (fun _ => none) "alice" "bob"
      ⟨"tokW", some 60⟩ ⟨"r", none⟩ 500).1,
   (authenticate_updates_refresh_preserves (fun _ => none) "alice" "bob"
      ⟨"tokW", some 60⟩ ⟨"r", none⟩ 500).2.1 (by decide)⟩
